import Mathlib

/-!
# Verification of the repo-analytics keyword/builtin/dunder analytics engine

Shallow embedding of `src/py312_language.py`, `src/keyword_analytics.py` and the
cache-key derivation of `src/app.py`.  Frozen reference sets are embedded as
`List String` (Python `frozenset` union becomes list append; only membership is
ever consulted).  Python's `collections.Counter` is embedded as an
insertion-ordered association list with `incr` (the `counter[s] += 1` idiom),
`updateC` (`Counter.update`) and `most_common` (stable sort by descending
count, which uniquely determines Python's stable `sorted(..., reverse=True)`).
-/

set_option maxRecDepth 4096

/-! ## Language reference (`src/py312_language.py`) -/

/-- `PY312_KWLIST`: the hard keywords of Python 3.12 (`py312_language.py`). -/
def PY312_KWLIST : List String :=
  ["False", "None", "True", "and", "as", "assert", "async", "await",
   "break", "class", "continue", "def", "del", "elif", "else", "except",
   "finally", "for", "from", "global", "if", "import", "in", "is",
   "lambda", "nonlocal", "not", "or", "pass", "raise", "return", "try",
   "while", "with", "yield"]

/-- `PY312_SOFTKWLIST`: soft keywords of Python 3.12. -/
def PY312_SOFTKWLIST : List String := ["_", "case", "match", "type"]

/-- `PY312_KEYWORDS = PY312_KWLIST | PY312_SOFTKWLIST` (set union as append). -/
def PY312_KEYWORDS : List String := PY312_KWLIST ++ PY312_SOFTKWLIST

/-- `PY312_BUILTIN_FUNCTIONS` from `py312_language.py`. -/
def PY312_BUILTIN_FUNCTIONS : List String :=
  ["abs", "aiter", "all", "anext", "any", "ascii", "bin", "bool", "breakpoint",
   "bytearray", "bytes", "callable", "chr", "classmethod", "compile", "complex",
   "delattr", "dict", "dir", "divmod", "enumerate", "eval", "exec", "filter",
   "float", "format", "frozenset", "getattr", "globals", "hasattr", "hash",
   "help", "hex", "id", "input", "int", "isinstance", "issubclass", "iter",
   "len", "list", "locals", "map", "max", "memoryview", "min", "next",
   "object", "oct", "open", "ord", "pow", "print", "property", "range",
   "repr", "reversed", "round", "set", "setattr", "slice", "sorted",
   "staticmethod", "str", "sum", "super", "tuple", "type", "vars", "zip",
   "__import__", "__build_class__"]

/-- `PY312_BUILTIN_CONSTANTS_AND_TYPES` from `py312_language.py`. -/
def PY312_BUILTIN_CONSTANTS_AND_TYPES : List String :=
  ["None", "Ellipsis", "NotImplemented", "False", "True",
   "bool", "memoryview", "bytearray", "bytes", "classmethod", "complex",
   "dict", "enumerate", "filter", "float", "frozenset", "property", "int",
   "list", "map", "object", "range", "reversed", "set", "slice",
   "staticmethod", "str", "super", "tuple", "type", "zip"]

/-- `PY312_BUILTIN_EXCEPTIONS` from `py312_language.py`. -/
def PY312_BUILTIN_EXCEPTIONS : List String :=
  ["BaseException", "Exception", "ArithmeticError", "AssertionError",
   "AttributeError", "BlockingIOError", "BrokenPipeError", "BufferError",
   "BytesWarning", "ChildProcessError", "ConnectionAbortedError",
   "ConnectionError", "ConnectionRefusedError", "ConnectionResetError",
   "DeprecationWarning", "EOFError", "EncodingWarning", "EnvironmentError",
   "FileExistsError", "FileNotFoundError", "FloatingPointError",
   "FutureWarning", "GeneratorExit", "OSError", "ImportError",
   "ImportWarning", "IndentationError", "IndexError", "InterruptedError",
   "IsADirectoryError", "KeyError", "KeyboardInterrupt", "LookupError",
   "MemoryError", "ModuleNotFoundError", "NameError", "NotImplementedError",
   "OverflowError", "PendingDeprecationWarning", "PermissionError",
   "ProcessLookupError", "RecursionError", "ReferenceError", "ResourceWarning",
   "RuntimeError", "RuntimeWarning", "StopAsyncIteration", "StopIteration",
   "SyntaxError", "SyntaxWarning", "SystemError", "SystemExit", "TabError",
   "TimeoutError", "TypeError", "UnboundLocalError", "UnicodeDecodeError",
   "UnicodeEncodeError", "UnicodeError", "UnicodeTranslateError", "UnicodeWarning",
   "UserWarning", "ValueError", "Warning", "ZeroDivisionError",
   "BaseExceptionGroup", "ExceptionGroup"]

/-- `PY312_BUILTINS`: union of the three builtin lists (duplicates harmless,
only membership is used; mirrors the `frozenset` union in the source). -/
def PY312_BUILTINS : List String :=
  PY312_BUILTIN_FUNCTIONS ++ PY312_BUILTIN_CONSTANTS_AND_TYPES ++ PY312_BUILTIN_EXCEPTIONS

/-- `PY312_SPECIAL_METHODS` from `py312_language.py` (the source lists
`__set_name__` and `__format__` twice; the duplicates are kept, membership is
unaffected). -/
def PY312_SPECIAL_METHODS : List String :=
  ["__init__", "__new__", "__del__", "__repr__", "__str__", "__bytes__",
   "__format__", "__lt__", "__le__", "__eq__", "__ne__", "__gt__", "__ge__",
   "__hash__", "__bool__", "__getattribute__", "__getattr__", "__setattr__",
   "__delattr__", "__dir__", "__set_name__", "__init_subclass__", "__prepare__",
   "__instancecheck__", "__subclasscheck__", "__class_getitem__",
   "__get__", "__set__", "__delete__", "__set_name__",
   "__call__",
   "__len__", "__length_hint__", "__getitem__", "__setitem__", "__delitem__",
   "__iter__", "__reversed__", "__contains__", "__missing__",
   "__add__", "__sub__", "__mul__", "__matmul__", "__truediv__", "__floordiv__",
   "__mod__", "__divmod__", "__pow__", "__lshift__", "__rshift__", "__and__",
   "__xor__", "__or__",
   "__radd__", "__rsub__", "__rmul__", "__rmatmul__", "__rtruediv__",
   "__rfloordiv__", "__rmod__", "__rdivmod__", "__rpow__", "__rlshift__",
   "__rrshift__", "__rand__", "__rxor__", "__ror__",
   "__iadd__", "__isub__", "__imul__", "__imatmul__", "__itruediv__",
   "__ifloordiv__", "__imod__", "__ipow__", "__ilshift__", "__irshift__",
   "__iand__", "__ixor__", "__ior__",
   "__neg__", "__pos__", "__abs__", "__invert__", "__complex__", "__int__",
   "__float__", "__index__", "__round__", "__trunc__", "__floor__", "__ceil__",
   "__enter__", "__exit__",
   "__await__", "__aiter__", "__anext__", "__aenter__", "__aexit__",
   "__coroutine__",
   "__buffer__", "__release_buffer__",
   "__mro_entries__", "__getnewargs__", "__getnewargs_ex__",
   "__reduce__", "__reduce_ex__", "__copy__", "__deepcopy__",
   "__format__",
   "__doc__", "__module__", "__name__", "__qualname__", "__class__",
   "__dict__", "__weakref__", "__bases__", "__mro__", "__subclasses__",
   "__sizeof__", "__fspath__"]

/-! ## Tokenizer model

`tokenize_source` drives Python's `tokenize.generate_tokens`, keeps exactly the
`NAME` tokens, and swallows `tokenize.TokenError` (structurally broken input)
via `except ... pass`, keeping the tokens produced before the fault.  The
scanner below embeds the lexical rules relevant to this repository (ASCII
identifiers, strings, comments, numbers, bracket tracking); it returns the raw
token list produced up to the fault together with a fault flag — the flag is
`true` exactly when `generate_tokens` would raise `TokenError` (unterminated
string, or an open bracket still pending at end of input). -/

/-- Raw token as seen by `tokenize_source`: only whether it is a `NAME` token
(and its text) matters, every other token type is skipped by the `continue`. -/
inductive PyTok where
  | name (s : String)
  | other
deriving DecidableEq

/-- Start character of a Python identifier (ASCII model). -/
def isIdentStart (c : Char) : Bool := c.isAlpha || c == '_'

/-- Continuation character of a Python identifier (ASCII model). -/
def isIdentCont (c : Char) : Bool := c.isAlphanum || c == '_'

/-- Opening brace character (written by code so the source file stays free of
brace literals). -/
def lbraceChar : Char := Char.ofNat 123

/-- Closing brace character. -/
def rbraceChar : Char := Char.ofNat 125

/-- Scan the body of a single-quoted string after the opening quote `q`:
returns `some rest` (input after the closing quote) or `none` when the string
is unterminated (end of input or end of line), in which case
`generate_tokens` raises `TokenError`. -/
def scanString (q : Char) : List Char → Option (List Char)
  | [] => none
  | c :: cs =>
    if c == q then some cs
    else if c == '\n' then none
    else if c == '\\' then
      match cs with
      | [] => none
      | _ :: cs' => scanString q cs'
    else scanString q cs

/-- One left-to-right pass over the character stream.  `depth` tracks open
brackets; at end of input a positive depth is the `EOF in multi-line
statement` fault.  The fuel argument is an upper bound on the number of steps
(each step consumes at least one character), used only to make the recursion
structural. -/
def scanAux : Nat → List Char → Nat → List PyTok × Bool
  | 0, _, _ => ([], true)
  | _ + 1, [], depth => ([], decide (0 < depth))
  | fuel + 1, c :: cs, depth =>
    if isIdentStart c then
      let ident := (c :: cs).takeWhile isIdentCont
      let rest := (c :: cs).dropWhile isIdentCont
      let r := scanAux fuel rest depth
      (PyTok.name (String.mk ident) :: r.1, r.2)
    else if c.isDigit then
      let rest := cs.dropWhile isIdentCont
      let r := scanAux fuel rest depth
      (PyTok.other :: r.1, r.2)
    else if c == '#' then
      scanAux fuel (cs.dropWhile (fun d => !(d == '\n'))) depth
    else if c == '\'' || c == '"' then
      match scanString c cs with
      | some rest =>
        let r := scanAux fuel rest depth
        (PyTok.other :: r.1, r.2)
      | none => ([], true)
    else if c == '(' || c == '[' || c == lbraceChar then
      let r := scanAux fuel cs (depth + 1)
      (PyTok.other :: r.1, r.2)
    else if c == ')' || c == ']' || c == rbraceChar then
      let r := scanAux fuel cs (depth - 1)
      (PyTok.other :: r.1, r.2)
    else if c.isWhitespace then
      scanAux fuel cs depth
    else
      let r := scanAux fuel cs depth
      (PyTok.other :: r.1, r.2)

/-- `tokenize.generate_tokens` as consumed by `tokenize_source`: the raw
tokens produced before any fault, and whether a `TokenError` fault occurred. -/
def pyScan (source : String) : List PyTok × Bool :=
  scanAux (source.data.length + 1) source.data 0

/-- Classification of one `NAME` token inside `tokenize_source`
(`if tok.string in PY312_KEYWORDS`). -/
def classifyName (s : String) : String × String :=
  if s ∈ PY312_KEYWORDS then ("keyword", s) else ("name", s)

/-- The loop body of `tokenize_source`: keep only `NAME` tokens, attach the
`keyword`/`name` kind. -/
def classifyNames (raw : List PyTok) : List (String × String) :=
  raw.filterMap fun t =>
    match t with
    | PyTok.name s => some (classifyName s)
    | PyTok.other => none

/-- `tokenize_source` (`keyword_analytics.py` lines 30-46): tokenize, keep
`NAME` tokens, classify against `PY312_KEYWORDS`; `tokenize.TokenError` is
swallowed (`except ... pass`), so the tokens produced before a fault are
returned and the fault flag is discarded. -/
def tokenize_source (source : String) : List (String × String) :=
  classifyNames (pyScan source).1

/-! ## Counter model (`collections.Counter`) -/

/-- Python `Counter`/`dict` as an insertion-ordered association list. -/
abbrev CounterL := List (String × Nat)

/-- `counter[s] += 1`: increments in place if present, otherwise appends
(dict insertion order). -/
def incr : CounterL → String → CounterL
  | [], s => [(s, 1)]
  | (k, n) :: rest, s => if k = s then (k, n + 1) :: rest else (k, n) :: incr rest s

/-- Add `m` to key `s` (in place if present, else append). -/
def addCount : CounterL → String → Nat → CounterL
  | [], s, m => [(s, m)]
  | (k, n) :: rest, s, m => if k = s then (k, n + m) :: rest else (k, n) :: addCount rest s m

/-- `Counter.update(other)`: fold the entries of `other` (in their insertion
order) into `self` by addition. -/
def updateC (c other : CounterL) : CounterL :=
  other.foldl (fun acc kv => addCount acc kv.1 kv.2) c

/-- `counter[s]` with default 0 (first matching key). -/
def lookupC : CounterL → String → Nat
  | [], _ => 0
  | (k, n) :: rest, s => if k = s then n else lookupC rest s

/-- `sum(counter.values())`. -/
def sumValues (c : CounterL) : Nat := (c.map (fun kv => kv.2)).sum

/-- The keys of a counter, in insertion order (`counter.keys()`). -/
def keysOf (c : CounterL) : List String := c.map (fun kv => kv.1)

/-- Insert one entry into a list sorted by descending count, before any entry
of equal count already present.  Since a stable sort by one key is uniquely
determined by its specification, folding this over the counter reproduces
Python's stable `sorted(items, key=count, reverse=True)`. -/
def insertDesc (x : String × Nat) : CounterL → CounterL
  | [] => [x]
  | y :: ys => if y.2 ≤ x.2 then x :: y :: ys else y :: insertDesc x ys

/-- `Counter.most_common()`: entries sorted by descending count, ties kept in
insertion (first-encountered) order. -/
def most_common (c : CounterL) : CounterL := c.foldr insertDesc []

/-! ## Classification counting (`count_keywords_builtins_dunder`) -/

/-- Loop body of `count_keywords_builtins_dunder`: keyword tokens feed only the
keyword counter; `name` tokens are checked independently against
`PY312_BUILTINS` and `PY312_SPECIAL_METHODS`. -/
def countStep (acc : CounterL × CounterL × CounterL) (t : String × String) :
    CounterL × CounterL × CounterL :=
  if t.1 = "keyword" then (incr acc.1 t.2, acc.2.1, acc.2.2)
  else if t.1 = "name" then
    (acc.1,
     (if t.2 ∈ PY312_BUILTINS then incr acc.2.1 t.2 else acc.2.1),
     (if t.2 ∈ PY312_SPECIAL_METHODS then incr acc.2.2 t.2 else acc.2.2))
  else acc

/-- `count_keywords_builtins_dunder` (`keyword_analytics.py` lines 49-67):
returns the keyword, builtin and dunder counters. -/
def count_keywords_builtins_dunder (tokens : List (String × String)) :
    CounterL × CounterL × CounterL :=
  tokens.foldl countStep ([], [], [])

/-- Number of tokens in `ts` with the given kind and text. -/
def countTok (ts : List (String × String)) (kind s : String) : Nat :=
  (ts.filter fun t => decide (t.1 = kind ∧ t.2 = s)).length

/-! ## Analysis results (`run_workflow`, `_run_workflow_directory`) -/

/-- The `meta` dictionary of an analysis result.  `files_processed`,
`total_bytes` and `repo_url` are `Option` because only directory / repo
workflows set them. -/
structure AnalysisMeta where
  source : String
  language_reference : String
  files_processed : Option Nat := none
  total_tokens_analyzed : Nat
  total_keyword_occurrences : Nat
  total_builtin_occurrences : Nat
  total_dunder_occurrences : Nat
  total_bytes : Option Nat := none
  repo_url : Option String := none
deriving DecidableEq

/-- The result dictionary returned by the workflows.  The three `dict(...)`
outputs of `most_common()` keep their list order (Python dicts preserve
insertion order and the counter keys are distinct). -/
structure AnalysisResult where
  meta : AnalysisMeta
  keyword_freq : CounterL
  builtin_freq : CounterL
  dunder_freq : CounterL
deriving DecidableEq

/-- `run_workflow` (`keyword_analytics.py` lines 70-102) for the in-memory
source branch (`in_memory_source is not None`); the `corpus_url` branch only
differs by fetching the text over HTTP first, which is I/O outside this
embedding. -/
def run_workflow (in_memory_source : String) : AnalysisResult :=
  let tokens := tokenize_source in_memory_source
  let c := count_keywords_builtins_dunder tokens
  { meta :=
      { source := "in_memory"
        language_reference := "Python 3.12 (frozen)"
        total_tokens_analyzed := tokens.length
        total_keyword_occurrences := sumValues c.1
        total_builtin_occurrences := sumValues c.2.1
        total_dunder_occurrences := sumValues c.2.2 }
    keyword_freq := most_common c.1
    builtin_freq := most_common c.2.1
    dunder_freq := most_common c.2.2 }

/-- A file of the materialized directory tree: its path (relative, as
enumerated by `rglob`) and `some` content, or `none` when reading raises
`OSError` (the file is skipped). -/
structure PyFile where
  path : String
  content : Option String
deriving DecidableEq

/-- `suf.isSuffixOf s` on the character lists: Python `str.endswith`. -/
def endsWithC (s suf : String) : Bool := suf.data.isSuffixOf s.data

/-- Stable insertion (by path, `≤` keeps the earlier element first) used to
model Python's `sorted` over the `rglob` result. -/
def insertByPath (x : PyFile) : List PyFile → List PyFile
  | [] => [x]
  | y :: ys => if x.path ≤ y.path then x :: y :: ys else y :: insertByPath x ys

/-- `sorted(repo_root.rglob("*.py"))`: stable sort by path. -/
def sortByPath (l : List PyFile) : List PyFile := l.foldr insertByPath []

/-- The eligible files of a tree, in processing order: the `.py` files sorted
by path. -/
def pyFilesOf (files : List PyFile) : List PyFile :=
  sortByPath (files.filter fun f => endsWithC f.path ".py")

/-- Accumulator of `_run_workflow_directory`'s loop. -/
structure DirAcc where
  kw : CounterL
  bi : CounterL
  du : CounterL
  total_tokens : Nat
  files_processed : Nat
  total_bytes : Nat
deriving DecidableEq

/-- Loop body of `_run_workflow_directory`: skip unreadable files (`OSError`),
otherwise tokenize, count, and merge into the running totals. -/
def dirStep (acc : DirAcc) (f : PyFile) : DirAcc :=
  match f.content with
  | none => acc
  | some source =>
    let tokens := tokenize_source source
    let c := count_keywords_builtins_dunder tokens
    { kw := updateC acc.kw c.1
      bi := updateC acc.bi c.2.1
      du := updateC acc.du c.2.2
      total_tokens := acc.total_tokens + tokens.length
      files_processed := acc.files_processed + 1
      total_bytes := acc.total_bytes + source.utf8ByteSize }

/-- The fold of `_run_workflow_directory` over the eligible files. -/
def dirFold (files : List PyFile) : DirAcc :=
  (pyFilesOf files).foldl dirStep ⟨[], [], [], 0, 0, 0⟩

/-- `_run_workflow_directory` (`keyword_analytics.py` lines 111-152); the
directory tree is given as the list of its files. -/
def dirWorkflowDirectory (files : List PyFile) (source_label : String) : AnalysisResult :=
  let a := dirFold files
  { meta :=
      { source := source_label
        language_reference := "Python 3.12 (frozen)"
        files_processed := some a.files_processed
        total_tokens_analyzed := a.total_tokens
        total_keyword_occurrences := sumValues a.kw
        total_builtin_occurrences := sumValues a.bi
        total_dunder_occurrences := sumValues a.du
        total_bytes := some a.total_bytes }
    keyword_freq := most_common a.kw
    builtin_freq := most_common a.bi
    dunder_freq := most_common a.du }

/-- `run_workflow_repo` (`keyword_analytics.py` lines 185-205).  The `git
clone` materialization is external process I/O; the cloned tree it produces is
passed in as `repoFiles` (spec §4.4: "given an identifier, produce a local
directory containing the corpus" is an external collaborator).  The eligibility
count, the two pre-flight failures, and the aggregation call are from the
source. -/
def run_workflow_repo (repoFiles : List PyFile) (repo_url : String)
    (max_files : Nat) : Except String AnalysisResult :=
  let py_count := (repoFiles.filter fun f => endsWithC f.path ".py").length
  if py_count = 0 then
    Except.error "Repository contains no .py files"
  else if py_count > max_files then
    Except.error s!"Repository has {py_count} .py files; max allowed is {max_files}"
  else
    let r := dirWorkflowDirectory repoFiles repo_url
    Except.ok { r with meta := { r.meta with repo_url := some repo_url } }

/-! ## URL normalization and cache key (`_normalize_repo_url`, `app._cache_key`) -/

/-- Characters of the regex class `[\w.-]` (ASCII model of `\w`). -/
def isWordDotDash (c : Char) : Bool := c.isAlphanum || c == '_' || c == '.' || c == '-'

/-- Split at the unique `/`: `some (before, after)` when the string contains
exactly one slash. -/
def splitAtSlash : List Char → Option (List Char × List Char)
  | [] => none
  | c :: cs =>
    if c == '/' then (if cs.contains '/' then none else some ([], cs))
    else (splitAtSlash cs).map fun p => (c :: p.1, p.2)

/-- `re.match(r"^[\w.-]+/[\w.-]+$", s)`: exactly one slash, both sides
non-empty runs of word/dot/dash characters. -/
def matchesOwnerRepo (s : String) : Bool :=
  match splitAtSlash s.data with
  | some (a, b) => !a.isEmpty && !b.isEmpty && a.all isWordDotDash && b.all isWordDotDash
  | none => false

/-- Substring containment (`needle in hay` on Python strings). -/
def containsSub (needle : List Char) : List Char → Bool
  | [] => needle.isEmpty
  | c :: t => needle.isPrefixOf (c :: t) || containsSub needle t

/-- Python `str.strip()` (whitespace from both ends). -/
def pyStrip (s : String) : String :=
  String.mk (((s.data.dropWhile Char.isWhitespace).reverse.dropWhile Char.isWhitespace).reverse)

/-- `_normalize_repo_url` (`keyword_analytics.py` lines 155-162). -/
def normalize_repo_url (repo_input : String) : String :=
  let s := pyStrip repo_input
  if matchesOwnerRepo s then "https://github.com/" ++ s ++ ".git"
  else if containsSub "github.com".data s.data && !endsWithC s ".git" then
    (if endsWithC s "/" then s else s ++ ".git")
  else s

/-- One hexadecimal digit. -/
def hexChar (n : Nat) : Char := if n < 10 then Char.ofNat (48 + n) else Char.ofNat (87 + n)

/-- `k` hex digits of `v`, least significant first. -/
def toHexAux : Nat → Nat → List Char
  | 0, _ => []
  | k + 1, v => hexChar (v % 16) :: toHexAux k (v / 16)

/-- Modelled from the spec: `app._cache_key` applies "a fixed-width
deterministic fingerprint (e.g., a cryptographic hash truncated to a fixed
length)" — concretely `hashlib.sha256(url.encode()).hexdigest()[:24]`, a
library primitive outside this embedding.  Stand-in: a 24-hex-digit
deterministic digest of the string (a 96-bit FNV-style fold).  Every property
proved about `cache_key` uses only that it is a function of its argument. -/
def hexDigest24 (s : String) : String :=
  String.mk (toHexAux 24
    (s.data.foldl (fun h c => (h * 1099511628211 + c.toNat) % (2 ^ 96)) 14695981039346656037))

/-- `_cache_key` (`app.py` lines 26-29): fingerprint of the normalized URL. -/
def cache_key (repo : String) : String := hexDigest24 (normalize_repo_url repo)



/-! ## Counter lemmas -/

@[simp] theorem keysOf_nil : keysOf ([] : CounterL) = [] := rfl

@[simp] theorem keysOf_cons (k : String) (n : Nat) (tail : CounterL) :
    keysOf ((k, n) :: tail) = k :: keysOf tail := rfl

@[simp] theorem keysOf_append (a b : CounterL) : keysOf (a ++ b) = keysOf a ++ keysOf b :=
  List.map_append _ a b

theorem lookupC_incr (c : CounterL) (s t : String) :
    lookupC (incr c s) t = lookupC c t + (if t = s then 1 else 0) := by
  induction c with
  | nil =>
    by_cases h : t = s
    · subst h; simp [incr, lookupC]
    · simp [incr, lookupC, h, Ne.symm h]
  | cons head tail ih =>
    obtain ⟨k, n⟩ := head
    by_cases hk : k = s
    · subst hk
      by_cases ht : k = t
      · subst ht; simp [incr, lookupC]
      · simp [incr, lookupC, ht]
        exact fun h => ht h.symm
    · by_cases ht : k = t
      · subst ht
        simp [incr, lookupC, hk, fun h : k = s => hk h]
      · simp [incr, lookupC, hk, ht, ih]

theorem mem_keysOf_incr {c : CounterL} {s t : String} (h : t ∈ keysOf (incr c s)) :
    t ∈ keysOf c ∨ t = s := by
  induction c with
  | nil =>
    simp [incr] at h
    exact Or.inr h
  | cons head tail ih =>
    obtain ⟨k, n⟩ := head
    by_cases hk : k = s
    · subst hk
      simp [incr] at h
      exact Or.inl (by simpa using h)
    · simp [incr, hk] at h
      rcases h with h | h
      · exact Or.inl (by simp [h])
      · rcases ih h with h' | h'
        · exact Or.inl (by simp [h'])
        · exact Or.inr h'

theorem keysOf_incr_of_mem {c : CounterL} {s : String} (h : s ∈ keysOf c) :
    keysOf (incr c s) = keysOf c := by
  induction c with
  | nil => simp at h
  | cons head tail ih =>
    obtain ⟨k, n⟩ := head
    by_cases hk : k = s
    · subst hk; simp [incr]
    · have h' : s ∈ keysOf tail := by
        rcases List.mem_cons.mp (by simpa using h) with h2 | h2
        · exact absurd h2.symm hk
        · exact h2
      simp [incr, hk, ih h']

theorem keysOf_incr_of_not_mem {c : CounterL} {s : String} (h : s ∉ keysOf c) :
    keysOf (incr c s) = keysOf c ++ [s] := by
  induction c with
  | nil => simp [incr]
  | cons head tail ih =>
    obtain ⟨k, n⟩ := head
    have h1 : ¬(k = s) := fun e => h (by simp [e])
    have h2 : s ∉ keysOf tail := fun e => h (by simp [e])
    simp [incr, h1, ih h2]

theorem nodup_keysOf_incr {c : CounterL} {s : String} (h : (keysOf c).Nodup) :
    (keysOf (incr c s)).Nodup := by
  by_cases hs : s ∈ keysOf c
  · rwa [keysOf_incr_of_mem hs]
  · rw [keysOf_incr_of_not_mem hs]
    simpa [List.nodup_append] using ⟨h, hs⟩

theorem addCount_of_not_mem {c : CounterL} {s : String} (m : Nat) (h : s ∉ keysOf c) :
    addCount c s m = c ++ [(s, m)] := by
  induction c with
  | nil => simp [addCount]
  | cons head tail ih =>
    obtain ⟨k, n⟩ := head
    have h1 : ¬(k = s) := fun e => h (by simp [e])
    have h2 : s ∉ keysOf tail := fun e => h (by simp [e])
    simp [addCount, h1, ih h2]

theorem mem_keysOf_addCount {c : CounterL} {s t : String} {m : Nat}
    (h : t ∈ keysOf (addCount c s m)) : t ∈ keysOf c ∨ t = s := by
  induction c with
  | nil =>
    simp [addCount] at h
    exact Or.inr h
  | cons head tail ih =>
    obtain ⟨k, n⟩ := head
    by_cases hk : k = s
    · subst hk
      simp [addCount] at h
      exact Or.inl (by simpa using h)
    · simp [addCount, hk] at h
      rcases h with h | h
      · exact Or.inl (by simp [h])
      · rcases ih h with h' | h'
        · exact Or.inl (by simp [h'])
        · exact Or.inr h'

theorem mem_keysOf_updateC {a b : CounterL} {t : String}
    (h : t ∈ keysOf (updateC a b)) : t ∈ keysOf a ∨ t ∈ keysOf b := by
  induction b generalizing a with
  | nil =>
    simp [updateC] at h
    exact Or.inl h
  | cons head tail ih =>
    obtain ⟨k, n⟩ := head
    have h' : t ∈ keysOf (updateC (addCount a k n) tail) := by
      simpa [updateC] using h
    rcases ih h' with h'' | h''
    · rcases mem_keysOf_addCount h'' with h3 | h3
      · exact Or.inl h3
      · exact Or.inr (by simp [h3])
    · exact Or.inr (by simp [h''])

theorem foldl_addCount_append (c : CounterL) :
    ∀ acc : CounterL, (keysOf (acc ++ c)).Nodup →
      c.foldl (fun a kv => addCount a kv.1 kv.2) acc = acc ++ c := by
  induction c with
  | nil => intro acc _; simp
  | cons head tail ih =>
    intro acc hnd
    obtain ⟨s, m⟩ := head
    have hnd1 : (keysOf acc ++ s :: keysOf tail).Nodup := by simpa using hnd
    have hdisj := List.disjoint_of_nodup_append hnd1
    have hs : s ∉ keysOf acc := fun hmem => hdisj hmem (List.mem_cons_self s _)
    have step : addCount acc s m = acc ++ [(s, m)] := addCount_of_not_mem m hs
    have hnd' : (keysOf ((acc ++ [(s, m)]) ++ tail)).Nodup := by
      simpa [List.append_assoc] using hnd
    calc ((s, m) :: tail).foldl (fun a kv => addCount a kv.1 kv.2) acc
        = tail.foldl (fun a kv => addCount a kv.1 kv.2) (acc ++ [(s, m)]) := by
          simp [step]
      _ = (acc ++ [(s, m)]) ++ tail := ih (acc ++ [(s, m)]) hnd'
      _ = acc ++ ((s, m) :: tail) := by simp

theorem updateC_nil_eq {c : CounterL} (h : (keysOf c).Nodup) : updateC [] c = c := by
  simpa using foldl_addCount_append c [] (by simpa using h)

/-! ## `most_common` lemmas: sum preservation, descending order, stability -/

theorem sumValues_insertDesc (x : String × Nat) (l : CounterL) :
    sumValues (insertDesc x l) = x.2 + sumValues l := by
  induction l with
  | nil => simp [insertDesc, sumValues]
  | cons y ys ih =>
    by_cases h : y.2 ≤ x.2
    · simp [insertDesc, h, sumValues]
    · simp [insertDesc, h, sumValues] at ih ⊢
      omega

theorem sumValues_most_common (c : CounterL) :
    sumValues (most_common c) = sumValues c := by
  induction c with
  | nil => rfl
  | cons x xs ih =>
    simp only [most_common, List.foldr_cons] at ih ⊢
    rw [sumValues_insertDesc, ih]
    simp [sumValues]

theorem mem_insertDesc {z x : String × Nat} {l : CounterL} :
    z ∈ insertDesc x l ↔ z = x ∨ z ∈ l := by
  induction l with
  | nil => simp [insertDesc]
  | cons y ys ih =>
    by_cases h : y.2 ≤ x.2
    · simp [insertDesc, h]
    · simp [insertDesc, h, ih]
      tauto

theorem mem_most_common {z : String × Nat} {c : CounterL} :
    z ∈ most_common c ↔ z ∈ c := by
  induction c with
  | nil => simp [most_common]
  | cons x xs ih =>
    simp only [most_common, List.foldr_cons] at ih ⊢
    rw [mem_insertDesc, ih]
    simp

theorem pairwise_insertDesc {x : String × Nat} {l : CounterL}
    (h : l.Pairwise fun a b => b.2 ≤ a.2) :
    (insertDesc x l).Pairwise fun a b => b.2 ≤ a.2 := by
  induction l with
  | nil => simp [insertDesc]
  | cons y ys ih =>
    rcases List.pairwise_cons.mp h with ⟨hy, hys⟩
    by_cases hle : y.2 ≤ x.2
    · simp only [insertDesc, if_pos hle]
      refine List.pairwise_cons.mpr ⟨?_, h⟩
      intro z hz
      rcases List.mem_cons.mp hz with hz | hz
      · exact hz ▸ hle
      · exact le_trans (hy z hz) hle
    · simp only [insertDesc, if_neg hle]
      refine List.pairwise_cons.mpr ⟨?_, ih hys⟩
      intro z hz
      rcases mem_insertDesc.mp hz with hz | hz
      · exact hz ▸ le_of_not_le hle
      · exact hy z hz

theorem sorted_most_common (c : CounterL) :
    (most_common c).Pairwise fun a b => b.2 ≤ a.2 := by
  induction c with
  | nil => simp [most_common]
  | cons x xs ih =>
    simp only [most_common, List.foldr_cons] at ih ⊢
    exact pairwise_insertDesc ih

theorem filter_insertDesc (n : Nat) (x : String × Nat) (l : CounterL) :
    (insertDesc x l).filter (fun e => decide (e.2 = n)) =
      (x :: l).filter (fun e => decide (e.2 = n)) := by
  induction l with
  | nil => simp [insertDesc]
  | cons y ys ih =>
    by_cases h : y.2 ≤ x.2
    · simp [insertDesc, h]
    · simp only [insertDesc, if_neg h, List.filter_cons, ih]
      by_cases hx : x.2 = n
      · have hy : ¬y.2 = n := fun hy => h (by omega)
        simp [hx, hy]
      · by_cases hy : y.2 = n
        · simp [hx, hy]
        · simp [hx, hy]

theorem filter_most_common (n : Nat) (c : CounterL) :
    (most_common c).filter (fun e => decide (e.2 = n)) =
      c.filter (fun e => decide (e.2 = n)) := by
  induction c with
  | nil => rfl
  | cons x xs ih =>
    simp only [most_common, List.foldr_cons] at ih ⊢
    rw [filter_insertDesc, List.filter_cons, List.filter_cons, ih]

theorem mem_keysOf_most_common {k : String} {c : CounterL} :
    k ∈ keysOf (most_common c) ↔ k ∈ keysOf c := by
  simp only [keysOf, List.mem_map]
  constructor
  · rintro ⟨e, he, rfl⟩
    exact ⟨e, mem_most_common.mp he, rfl⟩
  · rintro ⟨e, he, rfl⟩
    exact ⟨e, mem_most_common.mpr he, rfl⟩

/-! ## Characterization of `count_keywords_builtins_dunder` -/

theorem countStep_kw_lookup (acc : CounterL × CounterL × CounterL)
    (t : String × String) (s : String) :
    lookupC (countStep acc t).1 s =
      lookupC acc.1 s + (if t.1 = "keyword" ∧ t.2 = s then 1 else 0) := by
  by_cases h1 : t.1 = "keyword"
  · by_cases h2 : t.2 = s
    · simp [countStep, h1, h2, lookupC_incr]
    · simp [countStep, h1, h2, lookupC_incr]
      exact fun h => h2 h.symm
  · by_cases h2 : t.1 = "name" <;> simp [countStep, h1, h2]

theorem countStep_bi_lookup (acc : CounterL × CounterL × CounterL)
    (t : String × String) (s : String) :
    lookupC (countStep acc t).2.1 s =
      lookupC acc.2.1 s + (if t.1 = "name" ∧ t.2 = s ∧ s ∈ PY312_BUILTINS then 1 else 0) := by
  by_cases h1 : t.1 = "keyword"
  · simp [countStep, h1]
  · by_cases h2 : t.1 = "name"
    · by_cases h4 : t.2 = s
      · subst h4
        by_cases h3 : t.2 ∈ PY312_BUILTINS
        · simp [countStep, h1, h2, h3, lookupC_incr]
        · simp [countStep, h1, h2, h3]
      · by_cases h3 : t.2 ∈ PY312_BUILTINS
        · simp [countStep, h1, h2, h3, h4, lookupC_incr]
          exact fun h => h4 h.symm
        · simp [countStep, h1, h2, h3, h4]
    · simp [countStep, h1, h2]

theorem countStep_du_lookup (acc : CounterL × CounterL × CounterL)
    (t : String × String) (s : String) :
    lookupC (countStep acc t).2.2 s =
      lookupC acc.2.2 s +
        (if t.1 = "name" ∧ t.2 = s ∧ s ∈ PY312_SPECIAL_METHODS then 1 else 0) := by
  by_cases h1 : t.1 = "keyword"
  · simp [countStep, h1]
  · by_cases h2 : t.1 = "name"
    · by_cases h4 : t.2 = s
      · subst h4
        by_cases h3 : t.2 ∈ PY312_SPECIAL_METHODS
        · simp [countStep, h1, h2, h3, lookupC_incr]
        · simp [countStep, h1, h2, h3]
      · by_cases h3 : t.2 ∈ PY312_SPECIAL_METHODS
        · simp [countStep, h1, h2, h3, h4, lookupC_incr]
          exact fun h => h4 h.symm
        · simp [countStep, h1, h2, h3, h4]
    · simp [countStep, h1, h2]

theorem countTok_cons (t : String × String) (ts : List (String × String)) (kind s : String) :
    countTok (t :: ts) kind s =
      (if t.1 = kind ∧ t.2 = s then 1 else 0) + countTok ts kind s := by
  by_cases h : t.1 = kind ∧ t.2 = s
  · simp [countTok, List.filter_cons, h]
    omega
  · simp [countTok, List.filter_cons, h]

theorem count_fold_kw (ts : List (String × String)) :
    ∀ (acc : CounterL × CounterL × CounterL) (s : String),
      lookupC (ts.foldl countStep acc).1 s = lookupC acc.1 s + countTok ts "keyword" s := by
  induction ts with
  | nil => intro acc s; simp [countTok]
  | cons t ts ih =>
    intro acc s
    rw [List.foldl_cons, ih, countStep_kw_lookup, countTok_cons]
    omega

theorem count_fold_bi (ts : List (String × String)) :
    ∀ (acc : CounterL × CounterL × CounterL) (s : String),
      lookupC (ts.foldl countStep acc).2.1 s =
        lookupC acc.2.1 s + (if s ∈ PY312_BUILTINS then countTok ts "name" s else 0) := by
  induction ts with
  | nil => intro acc s; simp [countTok]
  | cons t ts ih =>
    intro acc s
    rw [List.foldl_cons, ih, countStep_bi_lookup, countTok_cons]
    by_cases hs : s ∈ PY312_BUILTINS
    · by_cases h : t.1 = "name" ∧ t.2 = s
      · simp [h, hs]
        omega
      · simp [h, hs]
    · simp [hs]

theorem count_fold_du (ts : List (String × String)) :
    ∀ (acc : CounterL × CounterL × CounterL) (s : String),
      lookupC (ts.foldl countStep acc).2.2 s =
        lookupC acc.2.2 s + (if s ∈ PY312_SPECIAL_METHODS then countTok ts "name" s else 0) := by
  induction ts with
  | nil => intro acc s; simp [countTok]
  | cons t ts ih =>
    intro acc s
    rw [List.foldl_cons, ih, countStep_du_lookup, countTok_cons]
    by_cases hs : s ∈ PY312_SPECIAL_METHODS
    · by_cases h : t.1 = "name" ∧ t.2 = s
      · simp [h, hs]
        omega
      · simp [h, hs]
    · simp [hs]

/-! ## Classification facts about `tokenize_source` -/

theorem mem_tokenize_source {src : String} {tk : String × String}
    (h : tk ∈ tokenize_source src) :
    (tk.1 = "keyword" ∧ tk.2 ∈ PY312_KEYWORDS) ∨ (tk.1 = "name" ∧ tk.2 ∉ PY312_KEYWORDS) := by
  simp only [tokenize_source, classifyNames, List.mem_filterMap] at h
  obtain ⟨t, _, ht⟩ := h
  cases t with
  | name s =>
    simp only [Option.some.injEq] at ht
    by_cases hk : s ∈ PY312_KEYWORDS
    · left; rw [← ht]; simp [classifyName, hk]
    · right; rw [← ht]; simp [classifyName, hk]
  | other => simp at ht

theorem tokenize_kw_texts (src : String) :
    ∀ tk ∈ tokenize_source src, tk.1 = "keyword" → tk.2 ∈ PY312_KEYWORDS := by
  intro tk htk hkw
  rcases mem_tokenize_source htk with ⟨_, h2⟩ | ⟨h1, _⟩
  · exact h2
  · rw [h1] at hkw
    exact absurd hkw (by decide)

theorem countTok_keyword_of_not_kw {src s : String} (h : s ∉ PY312_KEYWORDS) :
    countTok (tokenize_source src) "keyword" s = 0 := by
  simp only [countTok, List.length_eq_zero, List.filter_eq_nil_iff]
  intro t ht
  rcases mem_tokenize_source ht with ⟨_, h2⟩ | ⟨h1, _⟩
  · simp only [decide_eq_true_eq, not_and]
    exact fun _ he => h (he ▸ h2)
  · simp [h1]

theorem countTok_name_of_kw {src s : String} (h : s ∈ PY312_KEYWORDS) :
    countTok (tokenize_source src) "name" s = 0 := by
  simp only [countTok, List.length_eq_zero, List.filter_eq_nil_iff]
  intro t ht
  rcases mem_tokenize_source ht with ⟨h1, _⟩ | ⟨_, h2⟩
  · simp [h1]
  · simp only [decide_eq_true_eq, not_and]
    exact fun _ he => h2 (he ▸ h)

/-! ## Key-membership invariants of the counters -/

theorem keys_fold_kw (P : String → Prop) (ts : List (String × String)) :
    ∀ acc : CounterL × CounterL × CounterL,
      (∀ tk ∈ ts, tk.1 = "keyword" → P tk.2) → (∀ k ∈ keysOf acc.1, P k) →
      ∀ k ∈ keysOf ((ts.foldl countStep acc).1), P k := by
  induction ts with
  | nil => intro acc _ hacc k hk; exact hacc k hk
  | cons t ts ih =>
    intro acc hts hacc
    refine ih (countStep acc t) (fun tk htk => hts tk (List.mem_cons_of_mem _ htk)) ?_
    intro k hk
    by_cases h1 : t.1 = "keyword"
    · simp only [countStep, if_pos h1] at hk
      rcases mem_keysOf_incr hk with h | h
      · exact hacc k h
      · exact h ▸ hts t (List.mem_cons_self _ _) h1
    · by_cases h2 : t.1 = "name"
      · simp only [countStep, if_neg h1, if_pos h2] at hk
        exact hacc k hk
      · simp only [countStep, if_neg h1, if_neg h2] at hk
        exact hacc k hk

theorem keys_fold_bi (ts : List (String × String)) :
    ∀ (acc : CounterL × CounterL × CounterL) (k : String),
      k ∈ keysOf ((ts.foldl countStep acc).2.1) →
      k ∈ keysOf acc.2.1 ∨ k ∈ PY312_BUILTINS := by
  induction ts with
  | nil => intro acc k hk; exact Or.inl hk
  | cons t ts ih =>
    intro acc k hk
    rcases ih (countStep acc t) k hk with h | h
    · by_cases h1 : t.1 = "keyword"
      · simp only [countStep, if_pos h1] at h
        exact Or.inl h
      · by_cases h2 : t.1 = "name"
        · simp only [countStep, if_neg h1, if_pos h2] at h
          by_cases h3 : t.2 ∈ PY312_BUILTINS
          · simp only [if_pos h3] at h
            rcases mem_keysOf_incr h with h' | h'
            · exact Or.inl h'
            · exact Or.inr (h' ▸ h3)
          · simp only [if_neg h3] at h
            exact Or.inl h
        · simp only [countStep, if_neg h1, if_neg h2] at h
          exact Or.inl h
    · exact Or.inr h

theorem keys_fold_du (ts : List (String × String)) :
    ∀ (acc : CounterL × CounterL × CounterL) (k : String),
      k ∈ keysOf ((ts.foldl countStep acc).2.2) →
      k ∈ keysOf acc.2.2 ∨ k ∈ PY312_SPECIAL_METHODS := by
  induction ts with
  | nil => intro acc k hk; exact Or.inl hk
  | cons t ts ih =>
    intro acc k hk
    rcases ih (countStep acc t) k hk with h | h
    · by_cases h1 : t.1 = "keyword"
      · simp only [countStep, if_pos h1] at h
        exact Or.inl h
      · by_cases h2 : t.1 = "name"
        · simp only [countStep, if_neg h1, if_pos h2] at h
          by_cases h3 : t.2 ∈ PY312_SPECIAL_METHODS
          · simp only [if_pos h3] at h
            rcases mem_keysOf_incr h with h' | h'
            · exact Or.inl h'
            · exact Or.inr (h' ▸ h3)
          · simp only [if_neg h3] at h
            exact Or.inl h
        · simp only [countStep, if_neg h1, if_neg h2] at h
          exact Or.inl h
    · exact Or.inr h

theorem count_keys_kw (src : String) :
    ∀ k ∈ keysOf (count_keywords_builtins_dunder (tokenize_source src)).1,
      k ∈ PY312_KEYWORDS := by
  intro k hk
  exact keys_fold_kw (· ∈ PY312_KEYWORDS) (tokenize_source src) ([], [], [])
    (tokenize_kw_texts src) (by simp) k hk

theorem count_keys_bi (ts : List (String × String)) :
    ∀ k ∈ keysOf (count_keywords_builtins_dunder ts).2.1, k ∈ PY312_BUILTINS := by
  intro k hk
  rcases keys_fold_bi ts ([], [], []) k hk with h | h
  · simp at h
  · exact h

theorem count_keys_du (ts : List (String × String)) :
    ∀ k ∈ keysOf (count_keywords_builtins_dunder ts).2.2, k ∈ PY312_SPECIAL_METHODS := by
  intro k hk
  rcases keys_fold_du ts ([], [], []) k hk with h | h
  · simp at h
  · exact h

/-! ## Nodup-key invariants (Python dict keys are unique) -/

theorem count_fold_nodup (ts : List (String × String)) :
    ∀ acc : CounterL × CounterL × CounterL,
      (keysOf acc.1).Nodup → (keysOf acc.2.1).Nodup → (keysOf acc.2.2).Nodup →
      (keysOf ((ts.foldl countStep acc).1)).Nodup ∧
      (keysOf ((ts.foldl countStep acc).2.1)).Nodup ∧
      (keysOf ((ts.foldl countStep acc).2.2)).Nodup := by
  induction ts with
  | nil => intro acc h1 h2 h3; exact ⟨h1, h2, h3⟩
  | cons t ts ih =>
    intro acc h1 h2 h3
    refine ih (countStep acc t) ?_ ?_ ?_
    · by_cases ha : t.1 = "keyword"
      · simpa [countStep, ha] using nodup_keysOf_incr h1
      · by_cases hb : t.1 = "name" <;> simpa [countStep, ha, hb] using h1
    · by_cases ha : t.1 = "keyword"
      · simpa [countStep, ha] using h2
      · by_cases hb : t.1 = "name"
        · by_cases hc : t.2 ∈ PY312_BUILTINS
          · simpa [countStep, ha, hb, hc] using nodup_keysOf_incr h2
          · simpa [countStep, ha, hb, hc] using h2
        · simpa [countStep, ha, hb] using h2
    · by_cases ha : t.1 = "keyword"
      · simpa [countStep, ha] using h3
      · by_cases hb : t.1 = "name"
        · by_cases hc : t.2 ∈ PY312_SPECIAL_METHODS
          · simpa [countStep, ha, hb, hc] using nodup_keysOf_incr h3
          · simpa [countStep, ha, hb, hc] using h3
        · simpa [countStep, ha, hb] using h3

theorem count_nodup (ts : List (String × String)) :
    (keysOf (count_keywords_builtins_dunder ts).1).Nodup ∧
    (keysOf (count_keywords_builtins_dunder ts).2.1).Nodup ∧
    (keysOf (count_keywords_builtins_dunder ts).2.2).Nodup :=
  count_fold_nodup ts ([], [], []) (by simp) (by simp) (by simp)

/-! ## Directory aggregation lemmas -/

theorem foldl_dirStep_fp (l : List PyFile) :
    ∀ acc : DirAcc, (l.foldl dirStep acc).files_processed =
      acc.files_processed + (l.filter fun f => f.content.isSome).length := by
  induction l with
  | nil => intro acc; simp
  | cons f l ih =>
    intro acc
    rw [List.foldl_cons, ih]
    cases hf : f.content with
    | none => simp [dirStep, hf, List.filter_cons]
    | some src =>
      simp [dirStep, hf, List.filter_cons]
      omega

theorem dirFold_files_processed (files : List PyFile) :
    (dirFold files).files_processed =
      ((pyFilesOf files).filter fun f => f.content.isSome).length := by
  simpa using foldl_dirStep_fp (pyFilesOf files) ⟨[], [], [], 0, 0, 0⟩

theorem keys_dirFold_kw (l : List PyFile) :
    ∀ acc : DirAcc, (∀ k ∈ keysOf acc.kw, k ∈ PY312_KEYWORDS) →
      ∀ k ∈ keysOf (l.foldl dirStep acc).kw, k ∈ PY312_KEYWORDS := by
  induction l with
  | nil => intro acc hacc k hk; exact hacc k hk
  | cons f l ih =>
    intro acc hacc
    refine ih (dirStep acc f) ?_
    intro k hk
    cases hf : f.content with
    | none => exact hacc k (by simpa [dirStep, hf] using hk)
    | some src =>
      simp only [dirStep, hf] at hk
      rcases mem_keysOf_updateC hk with h | h
      · exact hacc k h
      · exact count_keys_kw src k h

theorem keys_dirFold_bi (l : List PyFile) :
    ∀ acc : DirAcc, (∀ k ∈ keysOf acc.bi, k ∈ PY312_BUILTINS) →
      ∀ k ∈ keysOf (l.foldl dirStep acc).bi, k ∈ PY312_BUILTINS := by
  induction l with
  | nil => intro acc hacc k hk; exact hacc k hk
  | cons f l ih =>
    intro acc hacc
    refine ih (dirStep acc f) ?_
    intro k hk
    cases hf : f.content with
    | none => exact hacc k (by simpa [dirStep, hf] using hk)
    | some src =>
      simp only [dirStep, hf] at hk
      rcases mem_keysOf_updateC hk with h | h
      · exact hacc k h
      · exact count_keys_bi (tokenize_source src) k h

theorem keys_dirFold_du (l : List PyFile) :
    ∀ acc : DirAcc, (∀ k ∈ keysOf acc.du, k ∈ PY312_SPECIAL_METHODS) →
      ∀ k ∈ keysOf (l.foldl dirStep acc).du, k ∈ PY312_SPECIAL_METHODS := by
  induction l with
  | nil => intro acc hacc k hk; exact hacc k hk
  | cons f l ih =>
    intro acc hacc
    refine ih (dirStep acc f) ?_
    intro k hk
    cases hf : f.content with
    | none => exact hacc k (by simpa [dirStep, hf] using hk)
    | some src =>
      simp only [dirStep, hf] at hk
      rcases mem_keysOf_updateC hk with h | h
      · exact hacc k h
      · exact count_keys_du (tokenize_source src) k h

/-! ## Disjointness of the frozen builtin and special-method sets -/

theorem builtins_specials_disjoint :
    ∀ x ∈ PY312_BUILTINS, x ∉ PY312_SPECIAL_METHODS := by decide

@[simp] theorem lookupC_nil (s : String) : lookupC [] s = 0 := rfl

theorem count_lookup_kw (ts : List (String × String)) (s : String) :
    lookupC (count_keywords_builtins_dunder ts).1 s = countTok ts "keyword" s := by
  simpa [count_keywords_builtins_dunder] using count_fold_kw ts ([], [], []) s

theorem count_lookup_bi (ts : List (String × String)) (s : String) :
    lookupC (count_keywords_builtins_dunder ts).2.1 s =
      (if s ∈ PY312_BUILTINS then countTok ts "name" s else 0) := by
  simpa [count_keywords_builtins_dunder] using count_fold_bi ts ([], [], []) s

theorem count_lookup_du (ts : List (String × String)) (s : String) :
    lookupC (count_keywords_builtins_dunder ts).2.2 s =
      (if s ∈ PY312_SPECIAL_METHODS then countTok ts "name" s else 0) := by
  simpa [count_keywords_builtins_dunder] using count_fold_du ts ([], [], []) s

/-! ## Claim theorems -/

/-- C1 (counterexample): on the input `"def foo(self): return self.__len__()"`
the claim says `meta.total_tokens_analyzed = 2`, but `tokenize_source` keeps
every `NAME` token (`def`, `foo`, `self`, `return`, `self`, `__len__`), so the
workflow reports 6, not 2. -/
theorem C1_counterexample :
    (run_workflow "def foo(self): return self.__len__()").meta.total_tokens_analyzed ≠ 2 := by
  decide

/-- C1 (amended): for the input `"def foo(self): return self.__len__()"` the
workflow yields `keyword_freq = [(def, 1), (return, 1)]`, `builtin_freq = {}`,
`dunder_freq = [(__len__, 1)]`, and `meta.total_tokens_analyzed = 6` (all six
name-class tokens, not just the two classified ones). -/
theorem C1_amended_ok :
    (run_workflow "def foo(self): return self.__len__()").keyword_freq =
        [("def", 1), ("return", 1)] ∧
    (run_workflow "def foo(self): return self.__len__()").builtin_freq = [] ∧
    (run_workflow "def foo(self): return self.__len__()").dunder_freq = [("__len__", 1)] ∧
    (run_workflow "def foo(self): return self.__len__()").meta.total_tokens_analyzed = 6 := by
  decide

/-- C2: in `count_keywords_builtins_dunder` over a tokenized source, a token
text belonging to `PY312_KEYWORDS` is counted only in the keyword table (its
builtin/dunder entries stay 0), while a non-keyword text is counted in the
builtin table iff it is a builtin and, independently, in the dunder table iff
it is a special method — so a single non-keyword token increments both tables
whenever its text lies in both reference sets. -/
theorem C2_classification (src s : String) :
    (s ∈ PY312_KEYWORDS →
      lookupC (count_keywords_builtins_dunder (tokenize_source src)).1 s =
        countTok (tokenize_source src) "keyword" s ∧
      lookupC (count_keywords_builtins_dunder (tokenize_source src)).2.1 s = 0 ∧
      lookupC (count_keywords_builtins_dunder (tokenize_source src)).2.2 s = 0) ∧
    (s ∉ PY312_KEYWORDS →
      lookupC (count_keywords_builtins_dunder (tokenize_source src)).1 s = 0 ∧
      lookupC (count_keywords_builtins_dunder (tokenize_source src)).2.1 s =
        (if s ∈ PY312_BUILTINS then countTok (tokenize_source src) "name" s else 0) ∧
      lookupC (count_keywords_builtins_dunder (tokenize_source src)).2.2 s =
        (if s ∈ PY312_SPECIAL_METHODS then countTok (tokenize_source src) "name" s else 0)) := by
  constructor
  · intro hs
    refine ⟨count_lookup_kw _ s, ?_, ?_⟩
    · rw [count_lookup_bi]
      simp [countTok_name_of_kw hs]
    · rw [count_lookup_du]
      simp [countTok_name_of_kw hs]
  · intro hs
    refine ⟨?_, count_lookup_bi _ s, count_lookup_du _ s⟩
    rw [count_lookup_kw]
    exact countTok_keyword_of_not_kw hs

/-- C2 witness: on `"def foo(self): return self.__len__()"`, the keyword `def`
has zero builtin/dunder entries, and the non-keyword `__len__` has zero
keyword entries and a dunder entry governed by set membership. -/
theorem C2_witness :
    lookupC (count_keywords_builtins_dunder
      (tokenize_source "def foo(self): return self.__len__()")).2.1 "def" = 0 ∧
    lookupC (count_keywords_builtins_dunder
      (tokenize_source "def foo(self): return self.__len__()")).2.2 "def" = 0 ∧
    lookupC (count_keywords_builtins_dunder
      (tokenize_source "def foo(self): return self.__len__()")).1 "__len__" = 0 ∧
    lookupC (count_keywords_builtins_dunder
      (tokenize_source "def foo(self): return self.__len__()")).2.2 "__len__" =
      (if "__len__" ∈ PY312_SPECIAL_METHODS then
        countTok (tokenize_source "def foo(self): return self.__len__()") "name" "__len__"
       else 0) :=
  ⟨((C2_classification "def foo(self): return self.__len__()" "def").1 (by decide)).2.1,
   ((C2_classification "def foo(self): return self.__len__()" "def").1 (by decide)).2.2,
   ((C2_classification "def foo(self): return self.__len__()" "__len__").2 (by decide)).1,
   ((C2_classification "def foo(self): return self.__len__()" "__len__").2 (by decide)).2.2⟩

/-- C3: a source whose token stream faults (`(pyScan src).2 = true`, the
modelled `tokenize.TokenError`) does not abort: `tokenize_source` still
returns exactly the tokens produced before the fault, and the directory
aggregator processes such a file normally — `files_processed` counts it, its
partial token count and partial frequency tables are merged (for a one-file
directory they equal the in-memory workflow's tables), and in general
`files_processed` counts every readable eligible file. -/
theorem C3_broken_stream (src label : String) (_fault : (pyScan src).2 = true) :
    tokenize_source src = classifyNames (pyScan src).1 ∧
    (dirWorkflowDirectory [⟨"broken.py", some src⟩] label).meta.files_processed = some 1 ∧
    (dirWorkflowDirectory [⟨"broken.py", some src⟩] label).meta.total_tokens_analyzed =
      (tokenize_source src).length ∧
    (dirWorkflowDirectory [⟨"broken.py", some src⟩] label).keyword_freq =
      (run_workflow src).keyword_freq ∧
    (dirWorkflowDirectory [⟨"broken.py", some src⟩] label).builtin_freq =
      (run_workflow src).builtin_freq ∧
    (dirWorkflowDirectory [⟨"broken.py", some src⟩] label).dunder_freq =
      (run_workflow src).dunder_freq ∧
    ∀ files : List PyFile, (dirWorkflowDirectory files label).meta.files_processed =
      some (((pyFilesOf files).filter fun f => f.content.isSome).length) := by
  obtain ⟨nd1, nd2, nd3⟩ := count_nodup (tokenize_source src)
  have hkw : (dirFold [⟨"broken.py", some src⟩]).kw =
      (count_keywords_builtins_dunder (tokenize_source src)).1 := updateC_nil_eq nd1
  have hbi : (dirFold [⟨"broken.py", some src⟩]).bi =
      (count_keywords_builtins_dunder (tokenize_source src)).2.1 := updateC_nil_eq nd2
  have hdu : (dirFold [⟨"broken.py", some src⟩]).du =
      (count_keywords_builtins_dunder (tokenize_source src)).2.2 := updateC_nil_eq nd3
  refine ⟨rfl, rfl, Nat.zero_add _, congrArg most_common hkw, congrArg most_common hbi,
    congrArg most_common hdu, fun files => congrArg some (dirFold_files_processed files)⟩

/-- C3 witness: `"def foo(:"` has an open bracket at end of input (fault), the
scanner still yields `def` and `foo`, and a directory holding just that file
reports `files_processed = 1`. -/
theorem C3_witness :
    (pyScan "def foo(:").2 = true ∧
    tokenize_source "def foo(:" = classifyNames (pyScan "def foo(:").1 ∧
    (dirWorkflowDirectory [⟨"broken.py", some "def foo(:"⟩] "d").meta.files_processed =
      some 1 :=
  ⟨by decide, (C3_broken_stream "def foo(:" "d" (by decide)).1,
   (C3_broken_stream "def foo(:" "d" (by decide)).2.1⟩

/-- C4: `_normalize_repo_url` maps `django/django`, the full GitHub URL and the
`.git`-suffixed URL to the same canonical clone URL, so `_cache_key` gives all
three the same cache key. -/
theorem C4_normalization :
    normalize_repo_url "django/django" = "https://github.com/django/django.git" ∧
    normalize_repo_url "https://github.com/django/django" =
      "https://github.com/django/django.git" ∧
    normalize_repo_url "https://github.com/django/django.git" =
      "https://github.com/django/django.git" ∧
    cache_key "django/django" = cache_key "https://github.com/django/django" ∧
    cache_key "https://github.com/django/django" =
      cache_key "https://github.com/django/django.git" := by
  decide

/-- C5: whenever the number of eligible `.py` files exceeds `max_files`, the
repo workflow returns the over-limit error — no aggregation result is
produced, so no file is tokenized and no counts are accumulated. -/
theorem C5_too_large (files : List PyFile) (url : String) (max_files n : Nat)
    (hn : (files.filter fun f => endsWithC f.path ".py").length = n)
    (hgt : n > max_files) :
    run_workflow_repo files url max_files =
      Except.error s!"Repository has {n} .py files; max allowed is {max_files}" := by
  subst hn
  have h0 : ¬((files.filter fun f => endsWithC f.path ".py").length = 0) := by omega
  simp only [run_workflow_repo]
  rw [if_neg h0, if_pos hgt]

/-- C5 witness: two eligible files against a ceiling of one. -/
theorem C5_witness :
    run_workflow_repo [⟨"a.py", some "x"⟩, ⟨"b.py", some "y"⟩] "u" 1 =
      Except.error "Repository has 2 .py files; max allowed is 1" :=
  C5_too_large [⟨"a.py", some "x"⟩, ⟨"b.py", some "y"⟩] "u" 1 2 (by decide) (by decide)

/-- C6: in every analysis result (in-memory workflow and directory
aggregator), each `meta` occurrence total equals the sum of the values of the
corresponding frequency table. -/
theorem C6_totals (src : String) (files : List PyFile) (label : String) :
    ((run_workflow src).meta.total_keyword_occurrences =
        sumValues (run_workflow src).keyword_freq ∧
      (run_workflow src).meta.total_builtin_occurrences =
        sumValues (run_workflow src).builtin_freq ∧
      (run_workflow src).meta.total_dunder_occurrences =
        sumValues (run_workflow src).dunder_freq) ∧
    ((dirWorkflowDirectory files label).meta.total_keyword_occurrences =
        sumValues (dirWorkflowDirectory files label).keyword_freq ∧
      (dirWorkflowDirectory files label).meta.total_builtin_occurrences =
        sumValues (dirWorkflowDirectory files label).builtin_freq ∧
      (dirWorkflowDirectory files label).meta.total_dunder_occurrences =
        sumValues (dirWorkflowDirectory files label).dunder_freq) := by
  refine ⟨⟨?_, ?_, ?_⟩, ?_, ?_, ?_⟩ <;> exact (sumValues_most_common _).symm

/-- C7: every key of `keyword_freq` is a Python 3.12 keyword, every key of
`builtin_freq` is a builtin, and every key of `dunder_freq` is a special
method, for both the in-memory workflow and the directory aggregator. -/
theorem C7_keys (src : String) (files : List PyFile) (label : String) (k : String) :
    (k ∈ keysOf (run_workflow src).keyword_freq → k ∈ PY312_KEYWORDS) ∧
    (k ∈ keysOf (run_workflow src).builtin_freq → k ∈ PY312_BUILTINS) ∧
    (k ∈ keysOf (run_workflow src).dunder_freq → k ∈ PY312_SPECIAL_METHODS) ∧
    (k ∈ keysOf (dirWorkflowDirectory files label).keyword_freq → k ∈ PY312_KEYWORDS) ∧
    (k ∈ keysOf (dirWorkflowDirectory files label).builtin_freq → k ∈ PY312_BUILTINS) ∧
    (k ∈ keysOf (dirWorkflowDirectory files label).dunder_freq →
      k ∈ PY312_SPECIAL_METHODS) := by
  refine ⟨?_, ?_, ?_, ?_, ?_, ?_⟩
  · intro hk
    exact count_keys_kw src k (mem_keysOf_most_common.mp hk)
  · intro hk
    exact count_keys_bi (tokenize_source src) k (mem_keysOf_most_common.mp hk)
  · intro hk
    exact count_keys_du (tokenize_source src) k (mem_keysOf_most_common.mp hk)
  · intro hk
    exact keys_dirFold_kw (pyFilesOf files) ⟨[], [], [], 0, 0, 0⟩ (by simp) k
      (mem_keysOf_most_common.mp hk)
  · intro hk
    exact keys_dirFold_bi (pyFilesOf files) ⟨[], [], [], 0, 0, 0⟩ (by simp) k
      (mem_keysOf_most_common.mp hk)
  · intro hk
    exact keys_dirFold_du (pyFilesOf files) ⟨[], [], [], 0, 0, 0⟩ (by simp) k
      (mem_keysOf_most_common.mp hk)

/-- C7 witness: concrete keys of each table of
`"def __init__(self): return len"` (as in-memory source and as a one-file
directory) land in the respective frozen sets. -/
theorem C7_witness :
    "def" ∈ PY312_KEYWORDS ∧ "len" ∈ PY312_BUILTINS ∧
    "__init__" ∈ PY312_SPECIAL_METHODS ∧ "return" ∈ PY312_KEYWORDS :=
  ⟨(C7_keys "def __init__(self): return len" [⟨"a.py", some "def __init__(self): return len"⟩]
      "d" "def").1 (by decide),
   (C7_keys "def __init__(self): return len" [⟨"a.py", some "def __init__(self): return len"⟩]
      "d" "len").2.2.2.2.1 (by decide),
   (C7_keys "def __init__(self): return len" [⟨"a.py", some "def __init__(self): return len"⟩]
      "d" "__init__").2.2.2.2.2 (by decide),
   (C7_keys "def __init__(self): return len" [⟨"a.py", some "def __init__(self): return len"⟩]
      "d" "return").2.2.2.1 (by decide)⟩

/-- C8: each output frequency table is ordered by descending count, and for
every count value the entries carrying that count appear exactly in the order
they entered the single-pass counter (stability of the tie-break), for both
the in-memory workflow and the directory aggregator. -/
theorem C8_ordering (src : String) (files : List PyFile) (label : String) :
    ((run_workflow src).keyword_freq.Pairwise (fun a b => b.2 ≤ a.2) ∧
      ∀ n : Nat, (run_workflow src).keyword_freq.filter (fun e => decide (e.2 = n)) =
        (count_keywords_builtins_dunder (tokenize_source src)).1.filter
          (fun e => decide (e.2 = n))) ∧
    ((run_workflow src).builtin_freq.Pairwise (fun a b => b.2 ≤ a.2) ∧
      ∀ n : Nat, (run_workflow src).builtin_freq.filter (fun e => decide (e.2 = n)) =
        (count_keywords_builtins_dunder (tokenize_source src)).2.1.filter
          (fun e => decide (e.2 = n))) ∧
    ((run_workflow src).dunder_freq.Pairwise (fun a b => b.2 ≤ a.2) ∧
      ∀ n : Nat, (run_workflow src).dunder_freq.filter (fun e => decide (e.2 = n)) =
        (count_keywords_builtins_dunder (tokenize_source src)).2.2.filter
          (fun e => decide (e.2 = n))) ∧
    ((dirWorkflowDirectory files label).keyword_freq.Pairwise (fun a b => b.2 ≤ a.2) ∧
      ∀ n : Nat, (dirWorkflowDirectory files label).keyword_freq.filter
          (fun e => decide (e.2 = n)) =
        (dirFold files).kw.filter (fun e => decide (e.2 = n))) ∧
    ((dirWorkflowDirectory files label).builtin_freq.Pairwise (fun a b => b.2 ≤ a.2) ∧
      ∀ n : Nat, (dirWorkflowDirectory files label).builtin_freq.filter
          (fun e => decide (e.2 = n)) =
        (dirFold files).bi.filter (fun e => decide (e.2 = n))) ∧
    ((dirWorkflowDirectory files label).dunder_freq.Pairwise (fun a b => b.2 ≤ a.2) ∧
      ∀ n : Nat, (dirWorkflowDirectory files label).dunder_freq.filter
          (fun e => decide (e.2 = n)) =
        (dirFold files).du.filter (fun e => decide (e.2 = n))) :=
  ⟨⟨sorted_most_common _, fun n => filter_most_common n _⟩,
   ⟨sorted_most_common _, fun n => filter_most_common n _⟩,
   ⟨sorted_most_common _, fun n => filter_most_common n _⟩,
   ⟨sorted_most_common _, fun n => filter_most_common n _⟩,
   ⟨sorted_most_common _, fun n => filter_most_common n _⟩,
   ⟨sorted_most_common _, fun n => filter_most_common n _⟩⟩

/-- C9: a materialized tree with zero eligible `.py` files makes the repo
workflow return the empty-corpus error, whatever other files it contains and
whatever the ceiling is; no aggregation result is produced. -/
theorem C9_empty_corpus (files : List PyFile) (url : String) (max_files : Nat)
    (h : (files.filter fun f => endsWithC f.path ".py").length = 0) :
    run_workflow_repo files url max_files =
      Except.error "Repository contains no .py files" := by
  simp only [run_workflow_repo]
  rw [if_pos h]

/-- C9 witness: a tree with only non-`.py` files (one of them unreadable). -/
theorem C9_witness :
    run_workflow_repo [⟨"README.md", some "hello"⟩, ⟨"Makefile", none⟩] "u" 5 =
      Except.error "Repository contains no .py files" :=
  C9_empty_corpus [⟨"README.md", some "hello"⟩, ⟨"Makefile", none⟩] "u" 5 (by decide)

/-- C10: the frozen `PY312_BUILTINS` and `PY312_SPECIAL_METHODS` sets are
disjoint, so although the classifier checks the two memberships
independently, no name can be a key of both `builtin_freq` and `dunder_freq`
in any result (in-memory workflow or directory aggregator). -/
theorem C10_disjoint (src s : String) (files : List PyFile) (label : String) :
    (s ∈ PY312_BUILTINS → s ∉ PY312_SPECIAL_METHODS) ∧
    (s ∈ keysOf (run_workflow src).builtin_freq →
      s ∉ keysOf (run_workflow src).dunder_freq) ∧
    (s ∈ keysOf (dirWorkflowDirectory files label).builtin_freq →
      s ∉ keysOf (dirWorkflowDirectory files label).dunder_freq) := by
  refine ⟨builtins_specials_disjoint s, ?_, ?_⟩
  · intro hb hd
    have h1 := count_keys_bi (tokenize_source src) s (mem_keysOf_most_common.mp hb)
    have h2 := count_keys_du (tokenize_source src) s (mem_keysOf_most_common.mp hd)
    exact builtins_specials_disjoint s h1 h2
  · intro hb hd
    have h1 := keys_dirFold_bi (pyFilesOf files) ⟨[], [], [], 0, 0, 0⟩ (by simp) s
      (mem_keysOf_most_common.mp hb)
    have h2 := keys_dirFold_du (pyFilesOf files) ⟨[], [], [], 0, 0, 0⟩ (by simp) s
      (mem_keysOf_most_common.mp hd)
    exact builtins_specials_disjoint s h1 h2

/-- C10 witness: `len` is a builtin key of the result for source `"len"` and
is therefore absent from the dunder table (and from the special-method set). -/
theorem C10_witness :
    "len" ∉ PY312_SPECIAL_METHODS ∧
    "len" ∉ keysOf (run_workflow "len").dunder_freq ∧
    "len" ∉ keysOf (dirWorkflowDirectory [⟨"a.py", some "len"⟩] "d").dunder_freq :=
  ⟨(C10_disjoint "len" "len" [] "d").1 (by decide),
   (C10_disjoint "len" "len" [] "d").2.1 (by decide),
   (C10_disjoint "len" "len" [⟨"a.py", some "len"⟩] "d").2.2 (by decide)⟩
